import Mathlib

/-!
Verification development for the arxiv-to-bluesky feeder
(`feeder_arxiv.py`).  Python strings are modelled as `List Char`
(sequences of Unicode code points), Python `len` as `List.length`,
Python slicing as `List.take`/`List.drop`, and the UTF-8 byte view of a
string as `utf8Str`.  The durable JSON store file is modelled by
`FileState`: absent, undecodable, or a decoded list of identifiers.
-/

/-- The durable store file: missing, present but not decodable as JSON,
or decoded content (a JSON array of strings). -/
inductive FileState where
  | absent : FileState
  | corrupt : FileState
  | content : List String → FileState
deriving DecidableEq, Repr

/-- `PaperTracker._load_posted_papers`: returns the decoded list when the
file exists and decodes, and `[]` when the file is missing or the decode
raises `json.JSONDecodeError`. -/
def load_posted_papers : FileState → List String
  | FileState.absent => []
  | FileState.corrupt => []
  | FileState.content ids => ids

/-- In-memory tracker state plus the durable file it last saw or wrote.
`writes` counts calls to `_save_posted_papers` (durable writes). -/
structure PaperTracker where
  posted : List String
  file : FileState
  writes : Nat
deriving DecidableEq, Repr

/-- `PaperTracker.__init__`: load the posted list from the durable file. -/
def PaperTracker.init (fs : FileState) : PaperTracker :=
  { posted := load_posted_papers fs, file := fs, writes := 0 }

/-- `PaperTracker._save_posted_papers`: rewrite the whole durable file
with the current in-memory list. -/
def save_posted_papers (t : PaperTracker) : PaperTracker :=
  { posted := t.posted, file := FileState.content t.posted, writes := t.writes + 1 }

/-- `PaperTracker.is_posted`: membership test (`arxiv_id in self.posted_papers`). -/
def PaperTracker.is_posted (t : PaperTracker) (pid : String) : Bool :=
  t.posted.contains pid

/-- `PaperTracker.mark_as_posted`: if absent, append and save; else no-op. -/
def PaperTracker.mark_as_posted (t : PaperTracker) (pid : String) : PaperTracker :=
  if t.posted.contains pid then t
  else save_posted_papers { posted := t.posted ++ [pid], file := t.file, writes := t.writes }

/-- Apply a sequence of `mark_as_posted` operations. -/
def applyMarks (ids : List String) (st : PaperTracker) : PaperTracker :=
  ids.foldl PaperTracker.mark_as_posted st

/-- Consistency of a tracker state with its durable file: every in-memory
identifier is recoverable by reloading the file. -/
def TrackerInv (st : PaperTracker) : Prop :=
  st.posted.all (fun x => (load_posted_papers st.file).contains x) = true

/-- Marking never removes an identifier from the in-memory list. -/
theorem mark_contains_mono (st : PaperTracker) (pid x : String)
    (h : st.posted.contains x = true) :
    (st.mark_as_posted pid).posted.contains x = true := by
  simp only [PaperTracker.mark_as_posted, save_posted_papers,
    List.elem_eq_mem, decide_eq_true_eq] at h ⊢
  by_cases hc : pid ∈ st.posted
  · simpa [hc] using h
  · simp [hc, h]

/-- Marking preserves duplicate-freedom of the in-memory list. -/
theorem mark_nodup (st : PaperTracker) (pid : String)
    (h : st.posted.Nodup) : (st.mark_as_posted pid).posted.Nodup := by
  simp only [PaperTracker.mark_as_posted, save_posted_papers,
    List.elem_eq_mem, decide_eq_true_eq]
  by_cases hc : pid ∈ st.posted
  · simpa [hc] using h
  · simp [hc, List.nodup_append, h]

/-- Claim C7: `_load_posted_papers` never raises; a missing durable file
and an undecodable durable file both yield the empty identifier list. -/
theorem load_absent_or_corrupt_empty :
    load_posted_papers FileState.absent = [] ∧
    load_posted_papers FileState.corrupt = [] :=
  ⟨rfl, rfl⟩

/-- Claim C6: `mark_as_posted` is a no-op (including no durable write)
when the identifier is already present; otherwise it appends the
identifier and rewrites the full list to the durable file; and marking
twice equals marking once. -/
theorem mark_as_posted_idempotent (st : PaperTracker) (pid : String) :
    (st.is_posted pid = true → st.mark_as_posted pid = st) ∧
    (st.is_posted pid = false →
      (st.mark_as_posted pid).posted = st.posted ++ [pid] ∧
      (st.mark_as_posted pid).file = FileState.content (st.posted ++ [pid]) ∧
      (st.mark_as_posted pid).writes = st.writes + 1) ∧
    (st.mark_as_posted pid).mark_as_posted pid = st.mark_as_posted pid := by
  refine ⟨?_, ?_, ?_⟩
  · intro h
    have hm : pid ∈ st.posted := by
      simpa [PaperTracker.is_posted] using h
    simp [PaperTracker.mark_as_posted, hm]
  · intro h
    have hm : pid ∉ st.posted := by
      simpa [PaperTracker.is_posted] using h
    simp [PaperTracker.mark_as_posted, save_posted_papers, hm]
  · have hpost : (st.mark_as_posted pid).posted.contains pid = true := by
      simp only [PaperTracker.mark_as_posted, save_posted_papers,
        List.elem_eq_mem, decide_eq_true_eq]
      by_cases hc : pid ∈ st.posted
      · simp [hc]
      · simp [hc]
    conv_lhs => rw [PaperTracker.mark_as_posted]
    simp only [List.elem_eq_mem, decide_eq_true_eq] at hpost
    simp [hpost]

/-- Witness for C6 at a concrete store. -/
theorem mark_as_posted_idempotent_witness :
    ((PaperTracker.init (FileState.content ["a"])).mark_as_posted "b").mark_as_posted "b" =
      (PaperTracker.init (FileState.content ["a"])).mark_as_posted "b" ∧
    (PaperTracker.init (FileState.content ["a"])).mark_as_posted "a" =
      PaperTracker.init (FileState.content ["a"]) :=
  ⟨(mark_as_posted_idempotent (PaperTracker.init (FileState.content ["a"])) "b").2.2,
   (mark_as_posted_idempotent (PaperTracker.init (FileState.content ["a"])) "a").1 (by decide)⟩

/-- Claim C5: the store-to-storage round trip.  The file-consistency
invariant holds for every freshly loaded tracker, is preserved by
`mark_as_posted`, and under it: after `mark_as_posted pid` the query
`is_posted pid` is true, and it is still true in a fresh tracker loaded
from the durable file that the marked tracker holds. -/
theorem mark_then_reload_is_posted :
    (∀ fs, TrackerInv (PaperTracker.init fs)) ∧
    (∀ st pid, TrackerInv st → TrackerInv (st.mark_as_posted pid)) ∧
    (∀ st pid, TrackerInv st →
      (st.mark_as_posted pid).is_posted pid = true ∧
      (PaperTracker.init (st.mark_as_posted pid).file).is_posted pid = true) := by
  refine ⟨?_, ?_, ?_⟩
  · intro fs
    simp only [TrackerInv, PaperTracker.init, List.all_eq_true]
    intro x hx
    simpa using hx
  · intro st pid h
    simp only [TrackerInv, List.all_eq_true] at h ⊢
    simp only [PaperTracker.mark_as_posted, save_posted_papers]
    by_cases hc : pid ∈ st.posted
    · simpa [hc] using h
    · simp [hc, load_posted_papers]
  · intro st pid h
    simp only [TrackerInv, List.all_eq_true] at h
    constructor
    · simp only [PaperTracker.is_posted, PaperTracker.mark_as_posted, save_posted_papers,
        List.elem_eq_mem, decide_eq_true_eq]
      by_cases hc : pid ∈ st.posted
      · simp [hc]
      · simp [hc]
    · simp only [PaperTracker.is_posted, PaperTracker.mark_as_posted, save_posted_papers,
        PaperTracker.init]
      by_cases hc : pid ∈ st.posted
      · have hload := h pid (by simpa using hc)
        simpa [hc] using hload
      · simp [hc, load_posted_papers]

/-- Witness for C5 at a concrete store. -/
theorem mark_then_reload_is_posted_witness :
    ((PaperTracker.init (FileState.content ["a"])).mark_as_posted "b").is_posted "b" = true ∧
    (PaperTracker.init
      ((PaperTracker.init (FileState.content ["a"])).mark_as_posted "b").file).is_posted "b"
        = true :=
  mark_then_reload_is_posted.2.2 (PaperTracker.init (FileState.content ["a"])) "b" rfl

/-- Counterexample for C10: a durable file holding a duplicated
identifier is loaded verbatim, so the freshly loaded store already
holds a duplicate before any operation runs. -/
theorem initial_store_duplicates_cex :
    ¬ (PaperTracker.init (FileState.content ["a", "a"])).posted.Nodup := by
  decide

/-- Claim C10 (amended): the store only grows — after any sequence of
`mark_as_posted` operations every initially stored identifier is still
stored — and `mark_as_posted` never introduces a duplicate, so a store
whose initial list is duplicate-free stays duplicate-free. -/
theorem marks_grow_preserve_nodup (st : PaperTracker) (ids : List String) :
    (st.posted.all (fun x => (applyMarks ids st).posted.contains x) = true) ∧
    (st.posted.Nodup → (applyMarks ids st).posted.Nodup) := by
  induction ids generalizing st with
  | nil =>
    refine ⟨?_, fun h => h⟩
    simp only [applyMarks, List.foldl_nil, List.all_eq_true]
    intro x hx
    simpa using hx
  | cons o rest ih =>
    have step : applyMarks (o :: rest) st = applyMarks rest (st.mark_as_posted o) := rfl
    refine ⟨?_, ?_⟩
    · rw [step]
      have hrest := (ih (st.mark_as_posted o)).1
      simp only [List.all_eq_true] at hrest ⊢
      intro x hx
      have hx1 : (st.mark_as_posted o).posted.contains x = true :=
        mark_contains_mono st o x (by simpa using hx)
      exact hrest x (by simpa using hx1)
    · intro h
      rw [step]
      exact (ih (st.mark_as_posted o)).2 (mark_nodup st o h)

/-- Witness for C10 at a concrete store and operation sequence. -/
theorem marks_grow_preserve_nodup_witness :
    ((PaperTracker.init (FileState.content ["a"])).posted.all
      (fun x => (applyMarks ["b", "a"] (PaperTracker.init (FileState.content ["a"]))).posted.contains x)
        = true) ∧
    (applyMarks ["b", "a"] (PaperTracker.init (FileState.content ["a"]))).posted.Nodup :=
  ⟨(marks_grow_preserve_nodup (PaperTracker.init (FileState.content ["a"])) ["b", "a"]).1,
   (marks_grow_preserve_nodup (PaperTracker.init (FileState.content ["a"])) ["b", "a"]).2
     (by decide)⟩

/-- UTF-8 encoding of a single code point, as a list of byte values. -/
def utf8Char (c : Char) : List Nat :=
  let n := c.toNat
  if n < 128 then [n]
  else if n < 2048 then [192 + n / 64, 128 + n % 64]
  else if n < 65536 then [224 + n / 4096, 128 + (n / 64) % 64, 128 + n % 64]
  else [240 + n / 262144, 128 + (n / 4096) % 64, 128 + (n / 64) % 64, 128 + n % 64]

/-- UTF-8 encoding of a string (list of code points) as a byte list. -/
def utf8Str : List Char → List Nat
  | [] => []
  | c :: rest => utf8Char c ++ utf8Str rest

/-- Python `bytes(s, "utf-8")[a:b]`: the half-open byte slice of the
UTF-8 encoding of a string. -/
def byteSlice (s : List Char) (a b : Nat) : List Nat :=
  ((utf8Str s).drop a).take (b - a)

/-- Python whitespace for `str.strip()` (ASCII portion). -/
def pyIsSpace (c : Char) : Bool :=
  c == ' ' || c == '\t' || c == '\n' || c == '\r' || c.toNat == 11 || c.toNat == 12

/-- Python `str.strip()`: drop leading and trailing whitespace. -/
def pyStrip (s : List Char) : List Char :=
  ((s.dropWhile pyIsSpace).reverse.dropWhile pyIsSpace).reverse

/-- Python `str.lower()` on one character (ASCII letters). -/
def lowerChar (c : Char) : Char :=
  if 64 < c.toNat && c.toNat < 91 then Char.ofNat (c.toNat + 32) else c

/-- Python `str.lower()`. -/
def pyLower (s : List Char) : List Char := s.map lowerChar

/-- Python `str.find`: index of the leftmost occurrence of `needle`. -/
def findSub (needle : List Char) : List Char → Option Nat
  | [] => if needle.isEmpty then some 0 else none
  | c :: rest =>
    if needle.isPrefixOf (c :: rest) then some 0
    else (findSub needle rest).map (· + 1)

/-- Substring containment (the Boolean outcome of `re.search` on a
literal pattern). -/
def containsSub (needle : List Char) : List Char → Bool
  | [] => needle.isEmpty
  | c :: rest => needle.isPrefixOf (c :: rest) || containsSub needle rest

/-- Case-insensitive literal search, the model of
`re.search(pat, s, re.IGNORECASE)` for a literal pattern. -/
def searchCI (pat s : List Char) : Bool :=
  containsSub (pyLower pat) (pyLower s)

/-- `clean_summary`: find `"abstract:"` case-insensitively; if found,
keep the summary from that position on and strip it, else keep the
whole summary. -/
def clean_summary (summary : List Char) : List Char :=
  match findSub "abstract:".data (pyLower summary) with
  | some p => pyStrip (summary.drop p)
  | none => summary

/-- The truncation step applied to the clean abstract:
`clean_abstract[:250] if len(clean_abstract) > 250 else clean_abstract`. -/
def short_summary_of (summary : List Char) : List Char :=
  let c := clean_summary summary
  if c.length > 250 then c.take 250 else c

/-- The eleven characters of the literal post header in the source file
`f"arxiv ðŸ“„ ..."`: the file stores the page emoji double-encoded, so
the literal is the four code points U+00F0, U+0178, U+201C, U+201E
between two spaces. -/
def arxivHeaderChars : List Char :=
  ['a', 'r', 'x', 'i', 'v', ' ',
   Char.ofNat 240, Char.ofNat 376, Char.ofNat 8220, Char.ofNat 8222, ' ']

/-- `title_text`: header, stripped title, newline. -/
def title_text_of (title : List Char) : List Char :=
  arxivHeaderChars ++ (pyStrip title ++ ['\n'])

/-- One feed item as consumed by the formatter and the pipeline. -/
structure ArxivPaper where
  title : List Char
  link : List Char
  summary : List Char
  arxiv_id : String
deriving DecidableEq, Repr

/-- The rich-text link record sent with the post: a byte range and the
target URI. -/
structure LinkFacet where
  byteStart : Nat
  byteEnd : Nat
  uri : List Char
deriving DecidableEq, Repr

/-- `post_text` before the final length clamp:
`f"{title_text}\n\n{paper['link']}\n{short_summary}"`. -/
def post_text_of (p : ArxivPaper) : List Char :=
  title_text_of p.title ++ (['\n', '\n'] ++ (p.link ++ ('\n' :: short_summary_of p.summary)))

/-- `create_post_with_link`: assemble the text, compute the facet from
character offsets plus the fixed `+3`/`+5` correction, and clamp texts
longer than 300 characters to 297 characters plus `"..."`. -/
def create_post_with_link (p : ArxivPaper) : List Char × LinkFacet :=
  let link_start := (title_text_of p.title).length
  let link_end := link_start + p.link.length
  let post_text := post_text_of p
  let facet : LinkFacet := { byteStart := link_start + 3, byteEnd := link_end + 5, uri := p.link }
  (if post_text.length > 300 then post_text.take 297 ++ "...".data else post_text, facet)

/-- Concrete item whose clamped post text still exceeds 300 bytes. -/
def paperOverflow : ArxivPaper :=
  { title := List.replicate 300 'a', link := "http://x".data,
    summary := "s".data, arxiv_id := "p1" }

set_option maxRecDepth 4000 in
/-- Counterexample for C1: the clamp in `create_post_with_link` counts
characters, not bytes; the header's four double-encoded code points make
the produced text 306 bytes long although it is 300 characters long. -/
theorem post_text_bytes_cex :
    ¬ ((utf8Str (create_post_with_link paperOverflow).1).length ≤ 300) := by
  decide

/-- Claim C1 (amended): for every input item the text produced by
`create_post_with_link` is at most 300 characters (code points) long;
the bound is on the character count, not the byte count. -/
theorem post_text_at_most_300_chars (p : ArxivPaper) :
    ((create_post_with_link p).1).length ≤ 300 := by
  unfold create_post_with_link
  dsimp only
  split
  · simp only [List.length_append, List.length_take, List.length_cons, List.length_nil]
    omega
  · next h => omega

/-- Concrete summary of 251 two-byte characters. -/
def summaryWide : List Char := List.replicate 251 (Char.ofNat 233)

set_option maxRecDepth 4000 in
/-- Counterexample for C3: the abstract truncation counts characters,
not bytes; 250 two-byte characters survive it, giving 500 bytes. -/
theorem short_summary_bytes_cex :
    ¬ ((utf8Str (short_summary_of summaryWide)).length ≤ 250) := by
  decide

/-- Claim C3 (amended): the clean abstract placed into the message is
truncated to at most 250 characters (code points), not bytes. -/
theorem short_summary_at_most_250_chars (s : List Char) :
    (short_summary_of s).length ≤ 250 := by
  unfold short_summary_of
  dsimp only
  split
  · rw [List.length_take]
    omega
  · next h => omega

/-- The filter applied to a raw entry's summary in `fetch_latest_papers`:
two early-continue checks, each a disjunction of case-insensitive
literal searches. -/
def entry_relevant (summary : List Char) : Bool :=
  if !searchCI "coding".data summary && !searchCI "programming".data summary
      && !searchCI "bug".data summary && !searchCI "testing".data summary
      && !searchCI "verilog".data summary then false
  else if !searchCI "LLM".data summary && !searchCI "Agent".data summary then false
  else true

/-- Keyword set A of the specification. -/
def keywordSetA : List (List Char) :=
  ["coding".data, "programming".data, "bug".data, "testing".data, "verilog".data]

/-- Keyword set B of the specification. -/
def keywordSetB : List (List Char) :=
  ["LLM".data, "Agent".data]

/-- The specification's formulation of relevance: at least one
case-insensitive match from set A and at least one from set B. -/
def spec_relevant (summary : List Char) : Bool :=
  (keywordSetA.any (fun k => searchCI k summary)) &&
  (keywordSetB.any (fun k => searchCI k summary))

/-- Claim C4: the code's filter accepts a summary exactly when it
case-insensitively contains a keyword from set A and one from set B;
a summary with "Bug" and "agent" passes, one with only "testing" and
no "LLM"/"Agent" is rejected. -/
theorem filter_keyword_iff :
    (∀ s, entry_relevant s = spec_relevant s) ∧
    entry_relevant "We fix a Bug with an agent.".data = true ∧
    entry_relevant "testing only".data = false := by
  refine ⟨?_, by decide, by decide⟩
  intro s
  unfold entry_relevant spec_relevant keywordSetA keywordSetB
  simp only [List.any_cons, List.any_nil, Bool.or_false]
  generalize searchCI "coding".data s = a
  generalize searchCI "programming".data s = b
  generalize searchCI "bug".data s = c
  generalize searchCI "testing".data s = d
  generalize searchCI "verilog".data s = e
  generalize searchCI "LLM".data s = f
  generalize searchCI "Agent".data s = g
  cases a <;> cases b <;> cases c <;> cases d <;> cases e <;> cases f <;> cases g <;> rfl

/-- `utf8Str` distributes over append. -/
theorem utf8Str_append (a b : List Char) : utf8Str (a ++ b) = utf8Str a ++ utf8Str b := by
  induction a with
  | nil => rfl
  | cons c rest ih => simp [utf8Str, ih, List.append_assoc]

/-- On ASCII strings the UTF-8 bytes are the code points themselves. -/
theorem utf8Str_ascii (s : List Char) (h : s.all (fun c => c.toNat < 128) = true) :
    utf8Str s = s.map Char.toNat := by
  induction s with
  | nil => rfl
  | cons c rest ih =>
    rw [List.all_cons, Bool.and_eq_true] at h
    have hc : c.toNat < 128 := by simpa using h.1
    rw [utf8Str, List.map_cons, ih h.2]
    have hone : utf8Char c = [c.toNat] := by
      simp [utf8Char, hc]
    rw [hone]
    rfl

/-- Every code point takes at least one byte. -/
theorem length_le_utf8Str (s : List Char) : s.length ≤ (utf8Str s).length := by
  induction s with
  | nil => simp [utf8Str]
  | cons c rest ih =>
    rw [utf8Str, List.length_append, List.length_cons]
    have hone : 1 ≤ (utf8Char c).length := by
      unfold utf8Char
      dsimp only
      split_ifs <;> simp
    omega

/-- Shape of the byte slice `[15 + |M|, 17 + |M| + |K|)` of a byte list
`A ++ M ++ [10,10,10] ++ K ++ R` with `|A| = 17`. -/
theorem slice_shape (A M K R : List Nat) (hA : A.length = 17)
    (hM : 2 ≤ M.length) (hK : 3 ≤ K.length) :
    ((A ++ (M ++ ([10, 10, 10] ++ (K ++ R)))).drop (15 + M.length)).take (K.length + 2)
      = M.drop (M.length - 2) ++ ([10, 10, 10] ++ K.take (K.length - 3)) := by
  rw [List.drop_append_eq_append_drop, List.drop_eq_nil_of_le (by omega), hA]
  have e1 : 15 + M.length - 17 = M.length - 2 := by omega
  rw [e1, List.nil_append]
  rw [List.drop_append_eq_append_drop]
  have e2 : M.length - 2 - M.length = 0 := by omega
  rw [e2, List.drop_zero]
  rw [List.take_append_eq_append_take]
  have e3 : (M.drop (M.length - 2)).length = 2 := by
    rw [List.length_drop]
    omega
  rw [List.take_of_length_le (by rw [e3]; omega), e3]
  have e4 : K.length + 2 - 2 = K.length := by omega
  rw [e4]
  rw [List.take_append_eq_append_take]
  have e5 : ([10, 10, 10] : List Nat).length = 3 := rfl
  rw [List.take_of_length_le (by rw [e5]; omega), e5]
  rw [List.take_append_eq_append_take]
  have e6 : K.length - 3 - K.length = 0 := by omega
  rw [e6, List.take_zero, List.append_nil]

/-- Concrete small item: ASCII title, link and summary, 28 characters
and 34 bytes of assembled text, far below the 300-byte limit. -/
def paperSmall : ArxivPaper :=
  { title := "Ab".data, link := "http://x".data, summary := "Sum".data, arxiv_id := "p2" }

/-- Counterexample for C2: even without truncation, slicing the produced
text's bytes from `byteStart` to `byteEnd` does not yield the link URI
(it yields the last two title bytes, three newlines, and the link minus
its last three bytes). -/
theorem facet_byte_slice_cex :
    (utf8Str (post_text_of paperSmall)).length ≤ 300 ∧
    byteSlice (create_post_with_link paperSmall).1
        (create_post_with_link paperSmall).2.byteStart
        (create_post_with_link paperSmall).2.byteEnd
      ≠ utf8Str paperSmall.link := by
  decide

/-- Length of the assembled `title_text`. -/
theorem title_text_length (title : List Char) :
    (title_text_of title).length = 12 + (pyStrip title).length := by
  simp [title_text_of, arxivHeaderChars]
  omega

/-- UTF-8 byte decomposition of the assembled post text. -/
theorem post_text_bytes (p : ArxivPaper) :
    utf8Str (post_text_of p) =
      utf8Str arxivHeaderChars ++ (utf8Str (pyStrip p.title) ++
        ([10, 10, 10] ++ (utf8Str p.link ++
          (10 :: utf8Str (short_summary_of p.summary))))) := by
  have h10 : utf8Char '\n' = [10] := by decide
  simp [post_text_of, title_text_of, utf8Str_append, utf8Str, h10, List.append_assoc]

/-- Claim C2 (amended): for an item whose stripped title and link are
ASCII (with at least 2 title characters and a link of at least 3
characters) and whose assembled text is at most 300 bytes, the byte
slice `[byteStart, byteEnd)` of the produced text is the last two bytes
of the stripped title, then three newline bytes, then the link minus its
last three bytes — not the link URI. -/
theorem facet_byte_slice_content (p : ArxivPaper)
    (hta : (pyStrip p.title).all (fun c => c.toNat < 128) = true)
    (htl : 2 ≤ (pyStrip p.title).length)
    (hla : p.link.all (fun c => c.toNat < 128) = true)
    (hll : 3 ≤ p.link.length)
    (hb : (utf8Str (post_text_of p)).length ≤ 300) :
    byteSlice (create_post_with_link p).1 (create_post_with_link p).2.byteStart
        (create_post_with_link p).2.byteEnd
      = (utf8Str (pyStrip p.title)).drop ((pyStrip p.title).length - 2)
          ++ ([10, 10, 10] ++ (utf8Str p.link).take (p.link.length - 3)) := by
  have hchar : (post_text_of p).length ≤ 300 :=
    le_trans (length_le_utf8Str _) hb
  have hprod : (create_post_with_link p).1 = post_text_of p := by
    unfold create_post_with_link
    dsimp only
    rw [if_neg (by omega)]
  have hfst : (create_post_with_link p).2.byteStart = (title_text_of p.title).length + 3 := rfl
  have hfend : (create_post_with_link p).2.byteEnd =
      (title_text_of p.title).length + p.link.length + 5 := rfl
  have hMlen : (utf8Str (pyStrip p.title)).length = (pyStrip p.title).length := by
    rw [utf8Str_ascii _ hta, List.length_map]
  have hKlen : (utf8Str p.link).length = p.link.length := by
    rw [utf8Str_ascii _ hla, List.length_map]
  rw [hprod, hfst, hfend, byteSlice, post_text_bytes]
  have e1 : (title_text_of p.title).length + 3 = 15 + (utf8Str (pyStrip p.title)).length := by
    rw [hMlen, title_text_length]
    omega
  have e2 : (title_text_of p.title).length + p.link.length + 5 -
      ((title_text_of p.title).length + 3) = (utf8Str p.link).length + 2 := by
    rw [hKlen]
    omega
  rw [e2, e1]
  rw [← hMlen, ← hKlen]
  exact slice_shape (utf8Str arxivHeaderChars) (utf8Str (pyStrip p.title)) (utf8Str p.link)
    (10 :: utf8Str (short_summary_of p.summary)) rfl (by omega) (by omega)

/-- Witness for C2 (amended) at the concrete small item. -/
theorem facet_byte_slice_content_witness :
    byteSlice (create_post_with_link paperSmall).1
        (create_post_with_link paperSmall).2.byteStart
        (create_post_with_link paperSmall).2.byteEnd
      = (utf8Str (pyStrip paperSmall.title)).drop ((pyStrip paperSmall.title).length - 2)
          ++ ([10, 10, 10] ++ (utf8Str paperSmall.link).take (paperSmall.link.length - 3)) :=
  facet_byte_slice_content paperSmall (by decide) (by decide) (by decide) (by decide) (by decide)

/-- `post_papers_to_bluesky`: process a batch in feed order.  Items whose
identifier the tracker already holds are skipped.  Otherwise a publish is
attempted (`pub` is the outcome of `create_post_with_link` plus
`client.send_post`); on success the identifier is marked, on failure
(the `except` branch) the tracker is left unchanged and the batch
continues.  Returns the final tracker and the publish attempts, each
recorded with the identifiers stored at the moment of the attempt. -/
def post_papers_to_bluesky (pub : ArxivPaper → Bool) :
    List ArxivPaper → PaperTracker → PaperTracker × List (String × List String)
  | [], st => (st, [])
  | p :: rest, st =>
    if st.is_posted p.arxiv_id then post_papers_to_bluesky pub rest st
    else if pub p then
      let r := post_papers_to_bluesky pub rest (st.mark_as_posted p.arxiv_id)
      (r.1, (p.arxiv_id, st.posted) :: r.2)
    else
      let r := post_papers_to_bluesky pub rest st
      (r.1, (p.arxiv_id, st.posted) :: r.2)

/-- First end-to-end batch item: already stored, filter-matching. -/
def paperE1 : ArxivPaper :=
  { title := "Paper One".data, link := "http://a".data,
    summary := "LLM coding".data, arxiv_id := "2401.00001" }

/-- Second end-to-end batch item: new, filter-matching. -/
def paperE2 : ArxivPaper :=
  { title := "Paper Two".data, link := "http://b".data,
    summary := "Agent testing".data, arxiv_id := "2401.00002" }

/-- End-to-end initial store, holding only the first identifier. -/
def trackerE : PaperTracker := PaperTracker.init (FileState.content ["2401.00001"])

/-- A publish transport that always succeeds. -/
def pubAlways : ArxivPaper → Bool := fun _ => true

/-- Claim C8: the pipeline never attempts to publish an item whose
identifier is stored at the moment it is processed; a stored item is
skipped without a publish attempt; and in the end-to-end scenario with
ids 2401.00001 (stored) and 2401.00002 (new), both filter-matching, only
2401.00002 is published, after which the store and its durable file hold
both identifiers. -/
theorem pipeline_skips_posted :
    (∀ pub papers st,
      ((post_papers_to_bluesky pub papers st).2.all
        (fun c => !(c.2.contains c.1))) = true) ∧
    (∀ pub p rest st, st.is_posted p.arxiv_id = true →
      post_papers_to_bluesky pub (p :: rest) st = post_papers_to_bluesky pub rest st) ∧
    (entry_relevant paperE1.summary = true ∧ entry_relevant paperE2.summary = true ∧
      (post_papers_to_bluesky pubAlways [paperE1, paperE2] trackerE).2
        = [("2401.00002", ["2401.00001"])] ∧
      (post_papers_to_bluesky pubAlways [paperE1, paperE2] trackerE).1.posted
        = ["2401.00001", "2401.00002"] ∧
      (post_papers_to_bluesky pubAlways [paperE1, paperE2] trackerE).1.file
        = FileState.content ["2401.00001", "2401.00002"]) := by
  refine ⟨?_, ?_, by decide, by decide, by decide, by decide, by decide⟩
  · intro pub papers
    induction papers with
    | nil => intro st; rfl
    | cons p rest ih =>
      intro st
      rw [post_papers_to_bluesky]
      by_cases hp : st.is_posted p.arxiv_id = true
      · simpa [hp] using ih st
      · rw [Bool.not_eq_true] at hp
        by_cases hq : pub p = true
        · simp only [hp, hq, Bool.false_eq_true, if_false, if_true, List.all_cons]
          rw [Bool.and_eq_true]
          constructor
          · simpa [PaperTracker.is_posted, List.elem_eq_mem] using hp
          · exact ih (st.mark_as_posted p.arxiv_id)
        · rw [Bool.not_eq_true] at hq
          simp only [hp, hq, Bool.false_eq_true, if_false, List.all_cons]
          rw [Bool.and_eq_true]
          constructor
          · simpa [PaperTracker.is_posted, List.elem_eq_mem] using hp
          · exact ih st
  · intro pub p rest st h
    rw [post_papers_to_bluesky, h]
    rfl

/-- Witness for C8 at a concrete stored item. -/
theorem pipeline_skips_posted_witness :
    post_papers_to_bluesky pubAlways [paperE1] trackerE
      = post_papers_to_bluesky pubAlways [] trackerE :=
  pipeline_skips_posted.2.1 pubAlways paperE1 [] trackerE (by decide)

/-- Claim C9: when the publish attempt for a new item fails, its
identifier is not recorded (the tracker that processes the rest of the
batch is the unchanged one) and the remaining items are still processed;
the failed attempt is merely logged in the attempt list. -/
theorem publish_failure_isolated (pub : ArxivPaper → Bool) (p : ArxivPaper)
    (rest : List ArxivPaper) (st : PaperTracker)
    (hnew : st.is_posted p.arxiv_id = false) (hfail : pub p = false) :
    post_papers_to_bluesky pub (p :: rest) st
      = ((post_papers_to_bluesky pub rest st).1,
         (p.arxiv_id, st.posted) :: (post_papers_to_bluesky pub rest st).2) := by
  rw [post_papers_to_bluesky, hnew, hfail]
  rfl

/-- A publish transport that always fails. -/
def pubNever : ArxivPaper → Bool := fun _ => false

/-- Witness for C9 at a concrete failing publish. -/
theorem publish_failure_isolated_witness :
    post_papers_to_bluesky pubNever [paperE2] trackerE
      = ((post_papers_to_bluesky pubNever [] trackerE).1,
         (paperE2.arxiv_id, trackerE.posted) :: (post_papers_to_bluesky pubNever [] trackerE).2) :=
  publish_failure_isolated pubNever paperE2 [] trackerE (by decide) (by decide)
